import Mathlib

/-
Shallow embedding of the 6502 CPU execution core from src/src/cpu.rs.

Conventions of the embedding:
* 8-bit values (registers, memory bytes, stack pointer, status) and 16-bit
  values (addresses, program counter) are represented as Nat.  Every Rust
  wrapping operation is translated with an explicit modulus, written at the
  exact place the source performs it.
* Rust arithmetic written with the plain + operator on u16 is translated by
  chkAdd16, which fails on overflow: under the default checked-arithmetic
  profile such an addition aborts the program instead of wrapping, and this
  distinction is exactly what several claims are about.  Fallible paths
  (overflow, the missing-opcode lookup, the NoneAddressing sentinel) return
  Except EngineError.
* Memory (the Bus) is kept behind the read/write-byte contract of the spec:
  a total function from 16-bit addresses to bytes.  src/bus.rs is not part
  of the sources, so the backing store is modelled from the spec, section
  4.2: a flat byte-addressable 16-bit space with no routing.
-/

set_option maxRecDepth 8192

namespace ENES

/-- Wrapping 8-bit addition, the Rust u8.wrapping_add of the source. -/
def wrapping_add8 (a b : Nat) : Nat := (a + b) % 256

/-- Wrapping 8-bit subtraction, the Rust u8.wrapping_sub of the source. -/
def wrapping_sub8 (a b : Nat) : Nat := (a + (256 - b % 256)) % 256

/-- Wrapping 8-bit negation, the Rust i8.wrapping_neg on the byte pattern. -/
def wrapping_neg8 (a : Nat) : Nat := (256 - a % 256) % 256

/-- Wrapping 16-bit addition, the Rust u16.wrapping_add of the source. -/
def wrapping_add16 (a b : Nat) : Nat := (a + b) % 65536

/-- Bitwise not on a byte, the Rust !mask on u8. -/
def not8 (x : Nat) : Nat := x ^^^ 255

/-- Sign extension of a byte to 16 bits, the Rust (b as i8) as u16 cast
chain used by the branch handler. -/
def sign_extend8 (b : Nat) : Nat :=
  if b % 256 < 128 then b % 256 else 0xFF00 + b % 256

/-- Failure modes of the engine.  unknownOpcode models the expect panic of
the opcode-table lookup, noneAddressing the sentinel panic of the resolver,
overflow an unchecked u16 addition that exceeded 0xFFFF, and unimplemented
the todo arm of the dispatcher match. -/
inductive EngineError where
  | unknownOpcode (code : Nat)
  | noneAddressing
  | overflow
  | unimplemented (code : Nat)
  deriving DecidableEq

/-- Checked 16-bit addition: the plain + on u16 in the source, which is an
overflow error (a panic under the default checked profile) past 0xFFFF. -/
def chkAdd16 (a b : Nat) : Except EngineError Nat :=
  if a + b < 65536 then Except.ok (a + b) else Except.error EngineError.overflow

/-- Stack page base, the STACK constant of the source. -/
def STACK : Nat := 0x0100

/-- Reset value of the stack pointer, the STACK_RESET constant. -/
def STACK_RESET : Nat := 0xFD

namespace CpuFlags

def CARRY : Nat := 0b00000001
def ZERO : Nat := 0b00000010
def INTERRUPT : Nat := 0b00000100
def DECIMAL : Nat := 0b00001000
def BREAK : Nat := 0b00010000
def BREAK2 : Nat := 0b00100000
def OVERFLOW : Nat := 0b01000000
def NEGATIVE : Nat := 0b10000000

end CpuFlags

/-- The ten addressing modes of the source enum. -/
inductive AddressingMode where
  | Immediate
  | ZeroPage
  | ZeroPage_X
  | ZeroPage_Y
  | Absolute
  | Absolute_X
  | Absolute_Y
  | Indirect_X
  | Indirect_Y
  | NoneAddressing
  deriving DecidableEq

/-- Processor state.  The mem field is the Bus behind the Memory Contract;
src/bus.rs is absent from the sources, so it is modelled from the spec,
section 4.2, as a flat byte-addressable 16-bit space. -/
structure CPU where
  register_a : Nat
  register_x : Nat
  register_y : Nat
  status : Nat
  program_counter : Nat
  stack_pointer : Nat
  mem : Nat → Nat

/-- Byte read through the Memory Contract: the address is a u16 and the
stored value a u8, hence the two moduli of the representation. -/
def CPU.mem_read (c : CPU) (addr : Nat) : Nat := c.mem (addr % 65536) % 256

/-- Byte write through the Memory Contract. -/
def CPU.mem_write (c : CPU) (addr : Nat) (data : Nat) : CPU :=
  { c with mem := fun a => if a = addr % 65536 then data % 256 else c.mem a }

/-- Little-endian 16-bit read, lines 54-58 of cpu.rs.  The high byte is
fetched at pos + 1 with an unchecked u16 addition. -/
def CPU.mem_read_u16 (c : CPU) (pos : Nat) : Except EngineError Nat := do
  let p1 ← chkAdd16 pos 1
  Except.ok (c.mem_read p1 <<< 8 ||| c.mem_read pos)

/-- Little-endian 16-bit write, lines 60-65 of cpu.rs. -/
def CPU.mem_write_u16 (c : CPU) (pos : Nat) (data : Nat) : Except EngineError CPU := do
  let p1 ← chkAdd16 pos 1
  let hi := data >>> 8 % 256
  let lo := data &&& 0xff
  Except.ok ((c.mem_write pos lo).mem_write p1 hi)

/-- Effective-address resolution, lines 108-161 of cpu.rs. -/
def CPU.get_operand_address (c : CPU) (mode : AddressingMode) : Except EngineError Nat :=
  match mode with
  | AddressingMode.Immediate => Except.ok c.program_counter
  | AddressingMode.ZeroPage => Except.ok (c.mem_read c.program_counter)
  | AddressingMode.Absolute => c.mem_read_u16 c.program_counter
  | AddressingMode.ZeroPage_X =>
      Except.ok (wrapping_add8 (c.mem_read c.program_counter) c.register_x)
  | AddressingMode.ZeroPage_Y =>
      Except.ok (wrapping_add8 (c.mem_read c.program_counter) c.register_y)
  | AddressingMode.Absolute_X => do
      let base ← c.mem_read_u16 c.program_counter
      Except.ok (wrapping_add16 base c.register_x)
  | AddressingMode.Absolute_Y => do
      let base ← c.mem_read_u16 c.program_counter
      Except.ok (wrapping_add16 base c.register_y)
  | AddressingMode.Indirect_X =>
      let base := c.mem_read c.program_counter
      let ptr := wrapping_add8 base c.register_x
      let lo := c.mem_read ptr
      let hi := c.mem_read (wrapping_add8 ptr 1)
      Except.ok (hi <<< 8 ||| lo)
  | AddressingMode.Indirect_Y =>
      let base := c.mem_read c.program_counter
      let lo := c.mem_read base
      let hi := c.mem_read (wrapping_add8 base 1)
      let deref_base := hi <<< 8 ||| lo
      Except.ok (wrapping_add16 deref_base c.register_y)
  | AddressingMode.NoneAddressing => Except.error EngineError.noneAddressing

/-- Stack pop, lines 164-167: increment first, then read. -/
def CPU.stack_pop (c : CPU) : Nat × CPU :=
  let sp := wrapping_add8 c.stack_pointer 1
  let c1 := { c with stack_pointer := sp }
  (c1.mem_read (STACK + sp), c1)

/-- Stack push, lines 169-172: write first, then decrement. -/
def CPU.stack_push (c : CPU) (data : Nat) : CPU :=
  let c1 := c.mem_write (STACK + c.stack_pointer) data
  { c1 with stack_pointer := wrapping_sub8 c.stack_pointer 1 }

/-- 16-bit stack push, lines 174-179: high byte pushed first. -/
def CPU.stack_push_u16 (c : CPU) (data : Nat) : CPU :=
  let hi := data >>> 8 % 256
  let lo := data &&& 0xff
  (c.stack_push hi).stack_push lo

/-- 16-bit stack pop, lines 181-186: low byte popped first. -/
def CPU.stack_pop_u16 (c : CPU) : Nat × CPU :=
  let r1 := c.stack_pop
  let r2 := r1.2.stack_pop
  (r2.1 <<< 8 ||| r1.1, r2.2)

/-- Reset, lines 188-196. -/
def CPU.reset (c : CPU) : Except EngineError CPU := do
  let pc ← c.mem_read_u16 0xFFFC
  Except.ok { c with register_a := 0, register_x := 0, register_y := 0,
                     status := 0, stack_pointer := STACK_RESET,
                     program_counter := pc }

/-- Program-copy loop of load, lines 199-201: writes the bytes at
0x0600 + i, where the index addition is an unchecked u16 addition. -/
def loadAux (c : CPU) (i : Nat) : List Nat → Except EngineError CPU
  | [] => Except.ok c
  | b :: rest => do
      let addr ← chkAdd16 0x0600 i
      loadAux (c.mem_write addr b) (i + 1) rest

/-- Load, lines 198-203.  The loop bound program.len() as u16 truncates the
length modulo 65536; the reset vector is written last. -/
def CPU.load (c : CPU) (program : List Nat) : Except EngineError CPU := do
  let c1 ← loadAux c 0 (program.take (program.length % 65536))
  c1.mem_write_u16 0xFFFC 0x0600

/-- Composite zero/negative flag update, lines 409-421. -/
def CPU.update_zero_and_negative_flags (c : CPU) (result : Nat) : CPU :=
  let c1 :=
    if result = 0 then { c with status := c.status ||| CpuFlags.ZERO }
    else { c with status := c.status &&& not8 CpuFlags.ZERO }
  if result &&& CpuFlags.NEGATIVE ≠ 0 then
    { c1 with status := c1.status ||| CpuFlags.NEGATIVE }
  else
    { c1 with status := c1.status &&& not8 CpuFlags.NEGATIVE }

/-- Accumulator write plus flag update, lines 423-426. -/
def CPU.set_register_a (c : CPU) (value : Nat) : CPU :=
  let c1 := { c with register_a := value }
  c1.update_zero_and_negative_flags c1.register_a

/-- Add with carry into the accumulator, lines 428-454. -/
def CPU.add_to_register_a (c : CPU) (data : Nat) : CPU :=
  let sum := c.register_a + data +
    (if c.status &&& CpuFlags.CARRY ≠ 0 then 1 else 0)
  let c1 :=
    if sum > 0xff then { c with status := c.status ||| CpuFlags.CARRY }
    else { c with status := c.status &&& not8 CpuFlags.CARRY }
  let result := sum % 256
  let c2 :=
    if (data ^^^ result) &&& (result ^^^ c1.register_a) &&& 0x80 ≠ 0 then
      { c1 with status := c1.status ||| CpuFlags.OVERFLOW }
    else { c1 with status := c1.status &&& not8 CpuFlags.OVERFLOW }
  c2.set_register_a result

/-- Compare, lines 456-466. -/
def CPU.compare (c : CPU) (mode : AddressingMode) (compare_with : Nat) :
    Except EngineError CPU := do
  let addr ← c.get_operand_address mode
  let data := c.mem_read addr
  let c1 :=
    if data ≤ compare_with then { c with status := c.status ||| CpuFlags.CARRY }
    else { c with status := c.status &&& not8 CpuFlags.CARRY }
  Except.ok (c1.update_zero_and_negative_flags (wrapping_sub8 compare_with data))

/-- Conditional branch, lines 468-478: all the address arithmetic here is
wrapping_add. -/
def CPU.branch (c : CPU) (condition : Bool) : CPU :=
  if condition then
    let jump := c.mem_read c.program_counter
    let jump_addr :=
      wrapping_add16 (wrapping_add16 c.program_counter 1) (sign_extend8 jump)
    { c with program_counter := jump_addr }
  else c

/-- LDA, lines 480-484. -/
def CPU.lda (c : CPU) (mode : AddressingMode) : Except EngineError CPU := do
  let addr ← c.get_operand_address mode
  Except.ok (c.set_register_a (c.mem_read addr))

/-- LDX, lines 486-491. -/
def CPU.ldx (c : CPU) (mode : AddressingMode) : Except EngineError CPU := do
  let addr ← c.get_operand_address mode
  let c1 := { c with register_x := c.mem_read addr }
  Except.ok (c1.update_zero_and_negative_flags c1.register_x)

/-- LDY, lines 493-498. -/
def CPU.ldy (c : CPU) (mode : AddressingMode) : Except EngineError CPU := do
  let addr ← c.get_operand_address mode
  let c1 := { c with register_y := c.mem_read addr }
  Except.ok (c1.update_zero_and_negative_flags c1.register_y)

/-- ADC, lines 500-504. -/
def CPU.adc (c : CPU) (mode : AddressingMode) : Except EngineError CPU := do
  let addr ← c.get_operand_address mode
  Except.ok (c.add_to_register_a (c.mem_read addr))

/-- SBC, lines 506-510: add of the two-complement negation minus one of the
operand byte, via the i8 wrapping casts of the source. -/
def CPU.sbc (c : CPU) (mode : AddressingMode) : Except EngineError CPU := do
  let addr ← c.get_operand_address mode
  Except.ok (c.add_to_register_a (wrapping_sub8 (wrapping_neg8 (c.mem_read addr)) 1))

/-- DEX, lines 512-515. -/
def CPU.dex (c : CPU) : CPU :=
  let c1 := { c with register_x := wrapping_sub8 c.register_x 1 }
  c1.update_zero_and_negative_flags c1.register_x

/-- DEC, lines 517-524.  The source also returns the decremented byte; the
dispatcher ignores it, so the embedding keeps the state only. -/
def CPU.dec (c : CPU) (mode : AddressingMode) : Except EngineError CPU := do
  let addr ← c.get_operand_address mode
  let data := wrapping_sub8 (c.mem_read addr) 1
  Except.ok ((c.mem_write addr data).update_zero_and_negative_flags data)

/-- STA, lines 526-529. -/
def CPU.sta (c : CPU) (mode : AddressingMode) : Except EngineError CPU := do
  let addr ← c.get_operand_address mode
  Except.ok (c.mem_write addr c.register_a)

/-- TAX, lines 531-534. -/
def CPU.tax (c : CPU) : CPU :=
  let c1 := { c with register_x := c.register_a }
  c1.update_zero_and_negative_flags c1.register_x

/-- TXA, lines 536-539. -/
def CPU.txa (c : CPU) : CPU :=
  let c1 := { c with register_a := c.register_x }
  c1.update_zero_and_negative_flags c1.register_a

/-- INX, lines 541-544. -/
def CPU.inx (c : CPU) : CPU :=
  let c1 := { c with register_x := wrapping_add8 c.register_x 1 }
  c1.update_zero_and_negative_flags c1.register_x

/-- INC, lines 546-553.  As with DEC, the returned byte is dropped. -/
def CPU.inc (c : CPU) (mode : AddressingMode) : Except EngineError CPU := do
  let addr ← c.get_operand_address mode
  let data := wrapping_add8 (c.mem_read addr) 1
  Except.ok ((c.mem_write addr data).update_zero_and_negative_flags data)

/-- BRK flag effect, lines 555-557. -/
def CPU.brk (c : CPU) : CPU :=
  { c with status := c.status ||| CpuFlags.BREAK ||| CpuFlags.BREAK2 }

/-- AND, lines 559-563. -/
def CPU.and (c : CPU) (mode : AddressingMode) : Except EngineError CPU := do
  let addr ← c.get_operand_address mode
  Except.ok (c.set_register_a (c.mem_read addr &&& c.register_a))

/-- LSR on the accumulator, lines 565-574. -/
def CPU.lsr_accumulator (c : CPU) : CPU :=
  let data := c.register_a
  let c1 :=
    if data &&& 1 = 1 then { c with status := c.status ||| CpuFlags.CARRY }
    else { c with status := c.status &&& not8 CpuFlags.CARRY }
  c1.set_register_a (data >>> 1)

/-- LSR on memory, lines 576-588.  The returned byte is dropped. -/
def CPU.lsr (c : CPU) (mode : AddressingMode) : Except EngineError CPU := do
  let addr ← c.get_operand_address mode
  let data := c.mem_read addr
  let c1 :=
    if data &&& 1 = 1 then { c with status := c.status ||| CpuFlags.CARRY }
    else { c with status := c.status &&& not8 CpuFlags.CARRY }
  let data1 := data >>> 1
  Except.ok ((c1.mem_write addr data1).update_zero_and_negative_flags data1)

/-- BIT, lines 590-615. -/
def CPU.bit (c : CPU) (mode : AddressingMode) : Except EngineError CPU := do
  let addr ← c.get_operand_address mode
  let data := c.mem_read addr
  let anded := c.register_a &&& data
  let c1 :=
    if anded = 0 then { c with status := c.status ||| CpuFlags.ZERO }
    else { c with status := c.status &&& not8 CpuFlags.ZERO }
  let c2 :=
    if data &&& 0b10000000 > 0 then { c1 with status := c1.status ||| CpuFlags.NEGATIVE }
    else { c1 with status := c1.status &&& not8 CpuFlags.NEGATIVE }
  let c3 :=
    if data &&& 0b01000000 > 0 then { c2 with status := c2.status ||| CpuFlags.OVERFLOW }
    else { c2 with status := c2.status &&& not8 CpuFlags.OVERFLOW }
  Except.ok c3

/-- Modelled from the spec: the Instruction Metadata Table (src/opcodes.rs,
absent from the sources).  Spec sections 2, 4.4 and 4.6 describe it as a
static map from opcode byte to addressing mode and encoded length 1-3; the
opcode bytes are the ones the dispatcher match of cpu.rs recognises, and
each length is one opcode byte plus the operand bytes its addressing mode
encodes (none for implied/accumulator and the sentinel-mode instructions,
one for zero-page, indexed-indirect, immediate and relative-branch
operands, two for absolute operands).  Branches and the accumulator LSR
carry the NoneAddressing sentinel because their handlers never consult the
resolver. -/
def OPCODES_MAP : Nat → Option (AddressingMode × Nat)
  | 0x00 => some (AddressingMode.NoneAddressing, 1)
  | 0xA9 => some (AddressingMode.Immediate, 2)
  | 0xA5 => some (AddressingMode.ZeroPage, 2)
  | 0xB5 => some (AddressingMode.ZeroPage_X, 2)
  | 0xAD => some (AddressingMode.Absolute, 3)
  | 0xBD => some (AddressingMode.Absolute_X, 3)
  | 0xB9 => some (AddressingMode.Absolute_Y, 3)
  | 0xA1 => some (AddressingMode.Indirect_X, 2)
  | 0xB1 => some (AddressingMode.Indirect_Y, 2)
  | 0xA2 => some (AddressingMode.Immediate, 2)
  | 0xA6 => some (AddressingMode.ZeroPage, 2)
  | 0xB6 => some (AddressingMode.ZeroPage_Y, 2)
  | 0xAE => some (AddressingMode.Absolute, 3)
  | 0xBE => some (AddressingMode.Absolute_Y, 3)
  | 0xA0 => some (AddressingMode.Immediate, 2)
  | 0xA4 => some (AddressingMode.ZeroPage, 2)
  | 0xB4 => some (AddressingMode.ZeroPage_X, 2)
  | 0xAC => some (AddressingMode.Absolute, 3)
  | 0xBC => some (AddressingMode.Absolute_X, 3)
  | 0x85 => some (AddressingMode.ZeroPage, 2)
  | 0x95 => some (AddressingMode.ZeroPage_X, 2)
  | 0x8D => some (AddressingMode.Absolute, 3)
  | 0x9D => some (AddressingMode.Absolute_X, 3)
  | 0x99 => some (AddressingMode.Absolute_Y, 3)
  | 0x81 => some (AddressingMode.Indirect_X, 2)
  | 0x91 => some (AddressingMode.Indirect_Y, 2)
  | 0x86 => some (AddressingMode.ZeroPage, 2)
  | 0x96 => some (AddressingMode.ZeroPage_Y, 2)
  | 0x8E => some (AddressingMode.Absolute, 3)
  | 0xE0 => some (AddressingMode.Immediate, 2)
  | 0xE4 => some (AddressingMode.ZeroPage, 2)
  | 0xEC => some (AddressingMode.Absolute, 3)
  | 0x20 => some (AddressingMode.Absolute, 3)
  | 0x60 => some (AddressingMode.NoneAddressing, 1)
  | 0x69 => some (AddressingMode.Immediate, 2)
  | 0x65 => some (AddressingMode.ZeroPage, 2)
  | 0x75 => some (AddressingMode.ZeroPage_X, 2)
  | 0x6D => some (AddressingMode.Absolute, 3)
  | 0x7D => some (AddressingMode.Absolute_X, 3)
  | 0x79 => some (AddressingMode.Absolute_Y, 3)
  | 0x61 => some (AddressingMode.Indirect_X, 2)
  | 0x71 => some (AddressingMode.Indirect_Y, 2)
  | 0xE9 => some (AddressingMode.Immediate, 2)
  | 0xE5 => some (AddressingMode.ZeroPage, 2)
  | 0xF5 => some (AddressingMode.ZeroPage_X, 2)
  | 0xED => some (AddressingMode.Absolute, 3)
  | 0xFD => some (AddressingMode.Absolute_X, 3)
  | 0xF9 => some (AddressingMode.Absolute_Y, 3)
  | 0xE1 => some (AddressingMode.Indirect_X, 2)
  | 0xF1 => some (AddressingMode.Indirect_Y, 2)
  | 0x29 => some (AddressingMode.Immediate, 2)
  | 0x25 => some (AddressingMode.ZeroPage, 2)
  | 0x35 => some (AddressingMode.ZeroPage_X, 2)
  | 0x2D => some (AddressingMode.Absolute, 3)
  | 0x3D => some (AddressingMode.Absolute_X, 3)
  | 0x39 => some (AddressingMode.Absolute_Y, 3)
  | 0x21 => some (AddressingMode.Indirect_X, 2)
  | 0x31 => some (AddressingMode.Indirect_Y, 2)
  | 0xD0 => some (AddressingMode.NoneAddressing, 2)
  | 0xF0 => some (AddressingMode.NoneAddressing, 2)
  | 0x70 => some (AddressingMode.NoneAddressing, 2)
  | 0x50 => some (AddressingMode.NoneAddressing, 2)
  | 0x10 => some (AddressingMode.NoneAddressing, 2)
  | 0x30 => some (AddressingMode.NoneAddressing, 2)
  | 0xB0 => some (AddressingMode.NoneAddressing, 2)
  | 0x90 => some (AddressingMode.NoneAddressing, 2)
  | 0xCA => some (AddressingMode.NoneAddressing, 1)
  | 0xAA => some (AddressingMode.NoneAddressing, 1)
  | 0x8A => some (AddressingMode.NoneAddressing, 1)
  | 0xE8 => some (AddressingMode.NoneAddressing, 1)
  | 0xC6 => some (AddressingMode.ZeroPage, 2)
  | 0xD6 => some (AddressingMode.ZeroPage_X, 2)
  | 0xCE => some (AddressingMode.Absolute, 3)
  | 0xDE => some (AddressingMode.Absolute_X, 3)
  | 0xD8 => some (AddressingMode.NoneAddressing, 1)
  | 0x58 => some (AddressingMode.NoneAddressing, 1)
  | 0xB8 => some (AddressingMode.NoneAddressing, 1)
  | 0x18 => some (AddressingMode.NoneAddressing, 1)
  | 0x38 => some (AddressingMode.NoneAddressing, 1)
  | 0x78 => some (AddressingMode.NoneAddressing, 1)
  | 0xF8 => some (AddressingMode.NoneAddressing, 1)
  | 0x24 => some (AddressingMode.ZeroPage, 2)
  | 0x2C => some (AddressingMode.Absolute, 3)
  | 0xC9 => some (AddressingMode.Immediate, 2)
  | 0xC5 => some (AddressingMode.ZeroPage, 2)
  | 0xD5 => some (AddressingMode.ZeroPage_X, 2)
  | 0xCD => some (AddressingMode.Absolute, 3)
  | 0xDD => some (AddressingMode.Absolute_X, 3)
  | 0xD9 => some (AddressingMode.Absolute_Y, 3)
  | 0xC1 => some (AddressingMode.Indirect_X, 2)
  | 0xD1 => some (AddressingMode.Indirect_Y, 2)
  | 0x4A => some (AddressingMode.NoneAddressing, 1)
  | 0x46 => some (AddressingMode.ZeroPage, 2)
  | 0x56 => some (AddressingMode.ZeroPage_X, 2)
  | 0x4E => some (AddressingMode.Absolute, 3)
  | 0x5E => some (AddressingMode.Absolute_X, 3)
  | 0xE6 => some (AddressingMode.ZeroPage, 2)
  | 0xF6 => some (AddressingMode.ZeroPage_X, 2)
  | 0xEE => some (AddressingMode.Absolute, 3)
  | 0xFE => some (AddressingMode.Absolute_X, 3)
  | 0x4C => some (AddressingMode.Absolute, 3)
  | 0xEA => some (AddressingMode.NoneAddressing, 1)
  | _ => none

/-- Instruction body of the dispatcher match, lines 230-399, for every
opcode except BRK (handled by step, since its arm returns from the loop).
The final arm models the todo of line 398. -/
def execArm (c : CPU) (code : Nat) (mode : AddressingMode) : Except EngineError CPU :=
  match code with
  | 0xA9 | 0xA5 | 0xB5 | 0xAD | 0xBD | 0xB9 | 0xA1 | 0xB1 => c.lda mode
  | 0xA2 | 0xA6 | 0xB6 | 0xAE | 0xBE => c.ldx mode
  | 0xA0 | 0xA4 | 0xB4 | 0xAC | 0xBC => c.ldy mode
  | 0x85 | 0x95 | 0x8D | 0x9D | 0x99 | 0x81 | 0x91 => c.sta mode
  | 0x86 | 0x96 | 0x8E => do
      let addr ← c.get_operand_address mode
      Except.ok (c.mem_write addr c.register_x)
  | 0xE0 | 0xE4 | 0xEC => c.compare mode c.register_x
  | 0x20 => do
      let t ← chkAdd16 c.program_counter 2
      let c1 := c.stack_push_u16 (t - 1)
      let target ← c1.mem_read_u16 c1.program_counter
      Except.ok { c1 with program_counter := target }
  | 0x60 =>
      let r := c.stack_pop_u16
      do
        let pc1 ← chkAdd16 r.1 1
        Except.ok { r.2 with program_counter := pc1 }
  | 0x69 | 0x65 | 0x75 | 0x6D | 0x7D | 0x79 | 0x61 | 0x71 => c.adc mode
  | 0xE9 | 0xE5 | 0xF5 | 0xED | 0xFD | 0xF9 | 0xE1 | 0xF1 => c.sbc mode
  | 0x29 | 0x25 | 0x35 | 0x2D | 0x3D | 0x39 | 0x21 | 0x31 => c.and mode
  | 0xD0 => Except.ok (c.branch (c.status &&& CpuFlags.ZERO == 0))
  | 0xF0 => Except.ok (c.branch (c.status &&& CpuFlags.ZERO != 0))
  | 0x70 => Except.ok (c.branch (c.status &&& CpuFlags.OVERFLOW != 0))
  | 0x50 => Except.ok (c.branch (c.status &&& CpuFlags.OVERFLOW == 0))
  | 0x10 => Except.ok (c.branch (c.status &&& CpuFlags.NEGATIVE == 0))
  | 0x30 => Except.ok (c.branch (c.status &&& CpuFlags.NEGATIVE != 0))
  | 0xB0 => Except.ok (c.branch (c.status &&& CpuFlags.CARRY != 0))
  | 0x90 => Except.ok (c.branch (c.status &&& CpuFlags.CARRY == 0))
  | 0xCA => Except.ok c.dex
  | 0xAA => Except.ok c.tax
  | 0x8A => Except.ok c.txa
  | 0xE8 => Except.ok c.inx
  | 0xC6 | 0xD6 | 0xCE | 0xDE => c.dec mode
  | 0xD8 => Except.ok { c with status := c.status &&& not8 CpuFlags.DECIMAL }
  | 0x58 => Except.ok { c with status := c.status &&& not8 CpuFlags.INTERRUPT }
  | 0xB8 => Except.ok { c with status := c.status &&& not8 CpuFlags.OVERFLOW }
  | 0x18 => Except.ok { c with status := c.status &&& not8 CpuFlags.CARRY }
  | 0x38 => Except.ok { c with status := c.status ||| CpuFlags.CARRY }
  | 0x78 => Except.ok { c with status := c.status ||| CpuFlags.INTERRUPT }
  | 0xF8 => Except.ok { c with status := c.status ||| CpuFlags.DECIMAL }
  | 0x24 | 0x2C => c.bit mode
  | 0xC9 | 0xC5 | 0xD5 | 0xCD | 0xDD | 0xD9 | 0xC1 | 0xD1 =>
      c.compare mode c.register_a
  | 0x4A => Except.ok c.lsr_accumulator
  | 0x46 | 0x56 | 0x4E | 0x5E => c.lsr mode
  | 0xE6 | 0xF6 | 0xEE | 0xFE => c.inc mode
  | 0x4C => do
      let mem_address ← c.mem_read_u16 c.program_counter
      Except.ok { c with program_counter := mem_address }
  | 0xEA => Except.ok c
  | _ => Except.error (EngineError.unimplemented code)

/-- Result of one dispatcher iteration. -/
structure StepOut where
  state : CPU
  halted : Bool

/-- One iteration of run_with_callback, lines 221-406: fetch the opcode,
advance the program counter by one with an unchecked u16 addition, look the
opcode up in the table, execute the body (the BRK arm sets the break flags
and leaves the loop at once), and advance the program counter by length
minus one when the instruction did not redirect it.  The state returned for
a non-halting iteration is exactly the state the callback of line 405
receives. -/
def step (c : CPU) : Except EngineError StepOut := do
  let code := c.mem_read c.program_counter
  let pc1 ← chkAdd16 c.program_counter 1
  let c1 := { c with program_counter := pc1 }
  match OPCODES_MAP code with
  | none => Except.error (EngineError.unknownOpcode code)
  | some md =>
      if code = 0x00 then Except.ok { state := c1.brk, halted := true }
      else do
        let c2 ← execArm c1 code md.1
        if pc1 = c2.program_counter then do
          let pc2 ← chkAdd16 c2.program_counter (md.2 - 1)
          Except.ok { state := { c2 with program_counter := pc2 }, halted := false }
        else Except.ok { state := c2, halted := false }

/-- Outcome of a fuel-bounded run of the dispatcher loop: the final state,
the list of states passed to the per-instruction callback in order, the
number of retired instructions, and whether the run ended by the BRK
return. -/
structure RunOut where
  final : CPU
  trace : List CPU
  retired : Nat
  halted : Bool

/-- Fuel-bounded run_with_callback, lines 221-406, recording in trace the
state at each invocation of the callback.  The BRK arm returns before the
callback of line 405, so a halting iteration contributes to retired but not
to trace. -/
def runWithTrace : Nat → CPU → Except EngineError RunOut
  | 0, c => Except.ok { final := c, trace := [], retired := 0, halted := false }
  | Nat.succ fuel, c =>
      match step c with
      | Except.error e => Except.error e
      | Except.ok out =>
          if out.halted then
            Except.ok { final := out.state, trace := [], retired := 1, halted := true }
          else
            match runWithTrace fuel out.state with
            | Except.error e => Except.error e
            | Except.ok r =>
                Except.ok { final := r.final, trace := out.state :: r.trace,
                            retired := r.retired + 1, halted := r.halted }

/-- Test whether a run completed without a fatal condition. -/
def runOk : Except EngineError RunOut → Bool
  | Except.ok _ => true
  | Except.error _ => false

/-- Whether a run ended by the halting BRK arm. -/
def runHalted : Except EngineError RunOut → Bool
  | Except.ok r => r.halted
  | Except.error _ => false

/-- Number of retired instructions of a run, zero on a fatal condition. -/
def runRetired : Except EngineError RunOut → Nat
  | Except.ok r => r.retired
  | Except.error _ => 0

/-- Number of callback invocations of a run, zero on a fatal condition. -/
def runTraceLen : Except EngineError RunOut → Nat
  | Except.ok r => r.trace.length
  | Except.error _ => 0

/-- Program counter of a successful non-halting step. -/
def stepPC : Except EngineError StepOut → Option Nat
  | Except.ok out => some out.state.program_counter
  | Except.error _ => none

/- Concrete states used to evaluate the engine at particular inputs. -/

/-- A freshly constructed processor over an all-zero memory, the state CPU
new of lines 96-106 yields over an empty bus. -/
def zeroCPU : CPU :=
  { register_a := 0, register_x := 0, register_y := 0, status := 0,
    program_counter := 0, stack_pointer := 0xFD, mem := fun _ => 0 }

/-- A state about to fetch a NOP at the very top of the address space. -/
def nopTopCpu : CPU :=
  { zeroCPU with program_counter := 0xFFFF, mem := fun _ => 0xEA }

/-- A state about to fetch a JSR at 0xFFFD, whose return-address arithmetic
reaches past the top of the address space. -/
def jsrTopCpu : CPU :=
  { zeroCPU with program_counter := 0xFFFD, mem := fun _ => 0x20 }

/-- A state about to fetch a taken BNE at 0xFFF0 with relative offset -16. -/
def branchTopCpu : CPU :=
  { zeroCPU with
    program_counter := 0xFFF0,
    mem := fun a => if a = 0xFFF0 then 0xD0 else if a = 0xFFF1 then 0xF0 else 0 }

/-- A state whose program counter points at a relative offset byte -16 near
the top of the address space, as the branch helper sees it. -/
def brOnlyCpu : CPU :=
  { zeroCPU with
    program_counter := 0xFFF1,
    mem := fun a => if a = 0xFFF1 then 0xF0 else 0 }

/-- A state about to run the two-instruction program LDA number 5 then BRK
at the fixed origin. -/
def ldaCpu : CPU :=
  { zeroCPU with
    program_counter := 0x0600,
    mem := fun a => if a = 0x0600 then 0xA9 else if a = 0x0601 then 5 else 0 }

/-- A state with accumulator 0x80, carry clear and the Decimal and
Interrupt-Disable bits set, about to add 0x80. -/
def adcCpu : CPU := { zeroCPU with register_a := 0x80, status := 0b1100 }

/- Helper lemmas about the status-flag pipelines. -/

/-- Reduction of a successful monadic bind on Except. -/
lemma except_bind_ok {A B : Type} (a : A) (f : A → Except EngineError B) :
    (Except.ok a >>= f) = f a := rfl

/-- Reduction of a failing monadic bind on Except. -/
lemma except_bind_error {A B : Type} (e : EngineError) (f : A → Except EngineError B) :
    ((Except.error e : Except EngineError A) >>= f) = Except.error e := rfl

/-- Bit-level behaviour of the zero/negative status pipeline, checked over
every status byte. -/
lemma zn_facts (b3 b4 : Bool) : ∀ st : Nat, st < 256 →
    (let st1 := if b3 then st ||| CpuFlags.ZERO else st &&& not8 CpuFlags.ZERO
     let st2 := if b4 then st1 ||| CpuFlags.NEGATIVE else st1 &&& not8 CpuFlags.NEGATIVE
     ((st2 &&& 2 ≠ 0) ↔ b3 = true) ∧ ((st2 &&& 128 ≠ 0) ↔ b4 = true) ∧
     st2 &&& 1 = st &&& 1 ∧ st2 &&& 4 = st &&& 4 ∧ st2 &&& 8 = st &&& 8 ∧
     st2 &&& 16 = st &&& 16 ∧ st2 &&& 32 = st &&& 32 ∧ st2 &&& 64 = st &&& 64 ∧
     st2 < 256) := by
  cases b3 <;> cases b4 <;> decide

/-- Bit 7 of a byte is set exactly when the byte is at least 128. -/
lemma nat_and128 : ∀ v : Nat, v < 256 → ((v &&& 128 ≠ 0) ↔ 128 ≤ v) := by decide

/-- Characterisation of update_zero_and_negative_flags: the Zero bit
records result = 0, the Negative bit records bit 7 of the result, every
other status bit and every other component of the state is unchanged. -/
lemma update_zn_spec (c : CPU) (v : Nat) (hs : c.status < 256) (hv : v < 256) :
    ((c.update_zero_and_negative_flags v).status &&& 2 ≠ 0 ↔ v = 0)
  ∧ ((c.update_zero_and_negative_flags v).status &&& 128 ≠ 0 ↔ 128 ≤ v)
  ∧ (c.update_zero_and_negative_flags v).status &&& 1 = c.status &&& 1
  ∧ (c.update_zero_and_negative_flags v).status &&& 4 = c.status &&& 4
  ∧ (c.update_zero_and_negative_flags v).status &&& 8 = c.status &&& 8
  ∧ (c.update_zero_and_negative_flags v).status &&& 16 = c.status &&& 16
  ∧ (c.update_zero_and_negative_flags v).status &&& 32 = c.status &&& 32
  ∧ (c.update_zero_and_negative_flags v).status &&& 64 = c.status &&& 64
  ∧ (c.update_zero_and_negative_flags v).status < 256
  ∧ (c.update_zero_and_negative_flags v).register_a = c.register_a
  ∧ (c.update_zero_and_negative_flags v).register_x = c.register_x
  ∧ (c.update_zero_and_negative_flags v).register_y = c.register_y
  ∧ (c.update_zero_and_negative_flags v).program_counter = c.program_counter
  ∧ (c.update_zero_and_negative_flags v).stack_pointer = c.stack_pointer
  ∧ (c.update_zero_and_negative_flags v).mem = c.mem := by
  have h := zn_facts (decide (v = 0)) (decide (v &&& CpuFlags.NEGATIVE ≠ 0)) c.status hs
  simp only at h
  by_cases h3 : v = 0 <;> by_cases h4 : v &&& CpuFlags.NEGATIVE ≠ 0 <;>
    simp only [CPU.update_zero_and_negative_flags, h3, h4, if_pos, if_neg,
      decide_eq_true_eq, ite_true, ite_false] at h ⊢ <;>
    simp_all [nat_and128 v hv, CpuFlags.NEGATIVE]

/-- Characterisation of set_register_a: it stores the value and refreshes
the Zero and Negative bits from it, leaving the other bits alone. -/
lemma set_register_a_spec (c : CPU) (v : Nat) (hs : c.status < 256) (hv : v < 256) :
    (c.set_register_a v).register_a = v
  ∧ ((c.set_register_a v).status &&& 2 ≠ 0 ↔ v = 0)
  ∧ ((c.set_register_a v).status &&& 128 ≠ 0 ↔ 128 ≤ v)
  ∧ (c.set_register_a v).status &&& 1 = c.status &&& 1
  ∧ (c.set_register_a v).status &&& 4 = c.status &&& 4
  ∧ (c.set_register_a v).status &&& 8 = c.status &&& 8
  ∧ (c.set_register_a v).status &&& 16 = c.status &&& 16
  ∧ (c.set_register_a v).status &&& 32 = c.status &&& 32
  ∧ (c.set_register_a v).status &&& 64 = c.status &&& 64
  ∧ (c.set_register_a v).status < 256 := by
  obtain ⟨hz, hn, hb1, hb4, hb8, hb16, hb32, hb64, hlt, hra, -, -, -, -, -⟩ :=
    update_zn_spec { c with register_a := v } v (by simpa using hs) hv
  simp only [CPU.set_register_a]
  exact ⟨by simpa using hra, hz, hn, hb1, hb4, hb8, hb16, hb32, hb64, hlt⟩

/-- Every byte read through the Memory Contract is below 256. -/
lemma mem_read_lt (c : CPU) (a : Nat) : c.mem_read a < 256 :=
  Nat.mod_lt _ (by norm_num)

/-- Reading back the address just written yields the written byte. -/
lemma mem_write_read_self (c : CPU) (a v : Nat) :
    (c.mem_write a v).mem_read a = v % 256 := by
  simp only [CPU.mem_read, CPU.mem_write, eq_self_iff_true, ite_true]
  omega

/-- Reading an address other than the one just written is unchanged. -/
lemma mem_write_read_other (c : CPU) (a b v : Nat) (hab : b % 65536 ≠ a % 65536) :
    (c.mem_write a v).mem_read b = c.mem_read b := by
  simp [CPU.mem_read, CPU.mem_write, hab]

/-- Masking a value with 255 is reduction modulo 256. -/
lemma and255_eq_mod (w : Nat) : w &&& 255 = w % 256 := by
  have h := Nat.and_pow_two_sub_one_eq_mod w 8
  simpa using h

/-- Shifting right by eight is division by 256. -/
lemma shiftRight8_eq_div (w : Nat) : w >>> 8 = w / 256 := by
  have h := Nat.shiftRight_eq_div_pow w 8
  simpa using h

/-- Assembling a high byte and a low byte with shift and or is the usual
little-endian recomposition. -/
lemma byte_lor_compose (h l : Nat) (hl : l < 256) : (h <<< 8 ||| l) = h * 256 + l := by
  rw [Nat.shiftLeft_eq]
  calc h * 2 ^ 8 ||| l = 2 ^ 8 * h ||| l := by rw [Nat.mul_comm]
    _ = 2 ^ 8 * h + l := (Nat.mul_add_lt_is_or (by simpa using hl) h).symm
    _ = h * 256 + l := by ring

/-- C5: for every 8-bit value v and every prior status byte, the composite
flag update sets the Zero bit exactly when v is zero, sets the Negative bit
exactly when v is at least 0x80, and leaves the Carry, Interrupt-Disable,
Decimal, Break, Break2 and Overflow bits unchanged. -/
theorem update_zero_and_negative_semantics (c : CPU) (v : Nat)
    (hs : c.status < 256) (hv : v < 256) :
    ((c.update_zero_and_negative_flags v).status &&& CpuFlags.ZERO ≠ 0 ↔ v = 0)
  ∧ ((c.update_zero_and_negative_flags v).status &&& CpuFlags.NEGATIVE ≠ 0 ↔ 0x80 ≤ v)
  ∧ (c.update_zero_and_negative_flags v).status &&& CpuFlags.CARRY
      = c.status &&& CpuFlags.CARRY
  ∧ (c.update_zero_and_negative_flags v).status &&& CpuFlags.INTERRUPT
      = c.status &&& CpuFlags.INTERRUPT
  ∧ (c.update_zero_and_negative_flags v).status &&& CpuFlags.DECIMAL
      = c.status &&& CpuFlags.DECIMAL
  ∧ (c.update_zero_and_negative_flags v).status &&& CpuFlags.BREAK
      = c.status &&& CpuFlags.BREAK
  ∧ (c.update_zero_and_negative_flags v).status &&& CpuFlags.BREAK2
      = c.status &&& CpuFlags.BREAK2
  ∧ (c.update_zero_and_negative_flags v).status &&& CpuFlags.OVERFLOW
      = c.status &&& CpuFlags.OVERFLOW := by
  obtain ⟨hz, hn, hb1, hb4, hb8, hb16, hb32, hb64, -, -⟩ :=
    update_zn_spec c v hs hv
  exact ⟨hz, hn, hb1, hb4, hb8, hb16, hb32, hb64⟩

/-- Witness for C5 at v = 0x80 over a status byte with every other bit set:
the hypotheses hold and the conclusion follows by the theorem. -/
theorem update_zero_and_negative_semantics_witness :
    ({ zeroCPU with status := 0x7D } : CPU).status < 256 ∧ (0x80 : Nat) < 256 ∧
    ((({ zeroCPU with status := 0x7D } : CPU).update_zero_and_negative_flags 0x80).status
        &&& CpuFlags.ZERO ≠ 0 ↔ (0x80 : Nat) = 0) ∧
    ((({ zeroCPU with status := 0x7D } : CPU).update_zero_and_negative_flags 0x80).status
        &&& CpuFlags.NEGATIVE ≠ 0 ↔ (0x80 : Nat) ≤ 0x80) := by
  have h := update_zero_and_negative_semantics { zeroCPU with status := 0x7D } 0x80
    (by decide) (by decide)
  exact ⟨by decide, by decide, h.1, h.2.1⟩

/-- C3: add_to_register_a computes the 9-bit sum of accumulator, operand
and incoming carry, stores its low 8 bits in the accumulator, sets Carry
exactly when the sum exceeds 0xFF, sets Overflow exactly when the pattern
(operand XOR result) AND (result XOR accumulator) AND 0x80 is nonzero, sets
Zero and Negative from the result, and leaves the Decimal and
Interrupt-Disable bits unchanged. -/
theorem adc_flag_semantics (c : CPU) (d : Nat) (hd : d < 256) (hs : c.status < 256) :
    (c.add_to_register_a d).register_a =
      (c.register_a + d + (if c.status &&& CpuFlags.CARRY ≠ 0 then 1 else 0)) % 256
  ∧ ((c.add_to_register_a d).status &&& CpuFlags.CARRY ≠ 0 ↔
      0xFF < c.register_a + d + (if c.status &&& CpuFlags.CARRY ≠ 0 then 1 else 0))
  ∧ ((c.add_to_register_a d).status &&& CpuFlags.OVERFLOW ≠ 0 ↔
      (d ^^^ (c.register_a + d + (if c.status &&& CpuFlags.CARRY ≠ 0 then 1 else 0)) % 256) &&&
      ((c.register_a + d + (if c.status &&& CpuFlags.CARRY ≠ 0 then 1 else 0)) % 256
        ^^^ c.register_a) &&& 0x80 ≠ 0)
  ∧ ((c.add_to_register_a d).status &&& CpuFlags.ZERO ≠ 0 ↔
      (c.register_a + d + (if c.status &&& CpuFlags.CARRY ≠ 0 then 1 else 0)) % 256 = 0)
  ∧ ((c.add_to_register_a d).status &&& CpuFlags.NEGATIVE ≠ 0 ↔
      0x80 ≤ (c.register_a + d + (if c.status &&& CpuFlags.CARRY ≠ 0 then 1 else 0)) % 256)
  ∧ (c.add_to_register_a d).status &&& CpuFlags.DECIMAL = c.status &&& CpuFlags.DECIMAL
  ∧ (c.add_to_register_a d).status &&& CpuFlags.INTERRUPT = c.status &&& CpuFlags.INTERRUPT
  ∧ (c.add_to_register_a d).status < 256 := by
  simp only [CpuFlags.CARRY, CpuFlags.OVERFLOW, CpuFlags.ZERO, CpuFlags.NEGATIVE,
    CpuFlags.DECIMAL, CpuFlags.INTERRUPT]
  set sum := c.register_a + d + (if c.status &&& 1 ≠ 0 then 1 else 0) with hsum
  set r := sum % 256 with hr
  have hrlt : r < 256 := Nat.mod_lt _ (by norm_num)
  by_cases h1 : sum > 0xff <;>
    by_cases h2 : (d ^^^ r) &&& (r ^^^ c.register_a) &&& 0x80 ≠ 0 <;>
    simp only [CPU.add_to_register_a, CpuFlags.CARRY, CpuFlags.OVERFLOW,
      ← hsum, ← hr, ne_eq] <;>
    simp only [h1, h2, not_false_eq_true, not_true_eq_false, ite_true, ite_false,
      if_true, if_false]
  · have hb := (by decide : ∀ st : Nat, st < 256 →
        (st ||| 1 ||| 64) &&& 1 ≠ 0 ∧ (st ||| 1 ||| 64) &&& 64 ≠ 0 ∧
        (st ||| 1 ||| 64) &&& 8 = st &&& 8 ∧ (st ||| 1 ||| 64) &&& 4 = st &&& 4 ∧
        (st ||| 1 ||| 64) < 256) c.status hs
    obtain ⟨sra, sz, sn, s1, s4, s8, s16, s32, s64, slt⟩ :=
      set_register_a_spec { c with status := c.status ||| 1 ||| 64 } r
        (by simpa using hb.2.2.2.2) hrlt
    refine ⟨sra, ?_, ?_, sz, sn, ?_, ?_, slt⟩
    · rw [s1]; simpa using hb.1
    · rw [s64]; simpa using hb.2.1
    · rw [s8]; simpa using hb.2.2.1
    · rw [s4]; simpa using hb.2.2.2.1
  · have hb := (by decide : ∀ st : Nat, st < 256 →
        ((st ||| 1) &&& not8 64) &&& 1 ≠ 0 ∧ ((st ||| 1) &&& not8 64) &&& 64 = 0 ∧
        ((st ||| 1) &&& not8 64) &&& 8 = st &&& 8 ∧
        ((st ||| 1) &&& not8 64) &&& 4 = st &&& 4 ∧
        ((st ||| 1) &&& not8 64) < 256) c.status hs
    obtain ⟨sra, sz, sn, s1, s4, s8, s16, s32, s64, slt⟩ :=
      set_register_a_spec { c with status := (c.status ||| 1) &&& not8 64 } r
        (by simpa using hb.2.2.2.2) hrlt
    refine ⟨sra, ?_, ?_, sz, sn, ?_, ?_, slt⟩
    · rw [s1]; simpa using hb.1
    · rw [s64]; simp [hb.2.1]
    · rw [s8]; simpa using hb.2.2.1
    · rw [s4]; simpa using hb.2.2.2.1
  · have hb := (by decide : ∀ st : Nat, st < 256 →
        ((st &&& not8 1) ||| 64) &&& 1 = 0 ∧ ((st &&& not8 1) ||| 64) &&& 64 ≠ 0 ∧
        ((st &&& not8 1) ||| 64) &&& 8 = st &&& 8 ∧
        ((st &&& not8 1) ||| 64) &&& 4 = st &&& 4 ∧
        ((st &&& not8 1) ||| 64) < 256) c.status hs
    obtain ⟨sra, sz, sn, s1, s4, s8, s16, s32, s64, slt⟩ :=
      set_register_a_spec { c with status := (c.status &&& not8 1) ||| 64 } r
        (by simpa using hb.2.2.2.2) hrlt
    refine ⟨sra, ?_, ?_, sz, sn, ?_, ?_, slt⟩
    · rw [s1]; simp [hb.1]
    · rw [s64]; simpa using hb.2.1
    · rw [s8]; simpa using hb.2.2.1
    · rw [s4]; simpa using hb.2.2.2.1
  · have hb := (by decide : ∀ st : Nat, st < 256 →
        ((st &&& not8 1) &&& not8 64) &&& 1 = 0 ∧ ((st &&& not8 1) &&& not8 64) &&& 64 = 0 ∧
        ((st &&& not8 1) &&& not8 64) &&& 8 = st &&& 8 ∧
        ((st &&& not8 1) &&& not8 64) &&& 4 = st &&& 4 ∧
        ((st &&& not8 1) &&& not8 64) < 256) c.status hs
    obtain ⟨sra, sz, sn, s1, s4, s8, s16, s32, s64, slt⟩ :=
      set_register_a_spec { c with status := (c.status &&& not8 1) &&& not8 64 } r
        (by simpa using hb.2.2.2.2) hrlt
    refine ⟨sra, ?_, ?_, sz, sn, ?_, ?_, slt⟩
    · rw [s1]; simp [hb.1]
    · rw [s64]; simp [hb.2.1]
    · rw [s8]; simpa using hb.2.2.1
    · rw [s4]; simpa using hb.2.2.2.1

/-- Witness for C3 at accumulator 0x80, operand 0x80, carry clear, Decimal
and Interrupt-Disable set: the hypotheses hold and the instantiated
conclusion exhibits result 0x00 with Carry set, Overflow set, Zero set,
Negative clear and Decimal/Interrupt-Disable untouched. -/
theorem adc_flag_semantics_witness :
    ((0x80 : Nat) < 256 ∧ adcCpu.status < 256) ∧
    ((adcCpu.add_to_register_a 0x80).register_a =
      (adcCpu.register_a + 0x80 + (if adcCpu.status &&& CpuFlags.CARRY ≠ 0 then 1 else 0)) % 256
  ∧ ((adcCpu.add_to_register_a 0x80).status &&& CpuFlags.CARRY ≠ 0 ↔
      0xFF < adcCpu.register_a + 0x80 + (if adcCpu.status &&& CpuFlags.CARRY ≠ 0 then 1 else 0))
  ∧ ((adcCpu.add_to_register_a 0x80).status &&& CpuFlags.OVERFLOW ≠ 0 ↔
      (0x80 ^^^ (adcCpu.register_a + 0x80 +
        (if adcCpu.status &&& CpuFlags.CARRY ≠ 0 then 1 else 0)) % 256) &&&
      ((adcCpu.register_a + 0x80 + (if adcCpu.status &&& CpuFlags.CARRY ≠ 0 then 1 else 0)) % 256
        ^^^ adcCpu.register_a) &&& 0x80 ≠ 0)
  ∧ ((adcCpu.add_to_register_a 0x80).status &&& CpuFlags.ZERO ≠ 0 ↔
      (adcCpu.register_a + 0x80 + (if adcCpu.status &&& CpuFlags.CARRY ≠ 0 then 1 else 0)) % 256 = 0)
  ∧ ((adcCpu.add_to_register_a 0x80).status &&& CpuFlags.NEGATIVE ≠ 0 ↔
      0x80 ≤ (adcCpu.register_a + 0x80 + (if adcCpu.status &&& CpuFlags.CARRY ≠ 0 then 1 else 0)) % 256)
  ∧ (adcCpu.add_to_register_a 0x80).status &&& CpuFlags.DECIMAL = adcCpu.status &&& CpuFlags.DECIMAL
  ∧ (adcCpu.add_to_register_a 0x80).status &&& CpuFlags.INTERRUPT = adcCpu.status &&& CpuFlags.INTERRUPT
  ∧ (adcCpu.add_to_register_a 0x80).status < 256) :=
  ⟨⟨by decide, by decide⟩, adc_flag_semantics adcCpu 0x80 (by decide) (by decide)⟩

/-- C4: compare sets Carry exactly when the memory operand is at most the
compared register value, and derives Zero and Negative from the wrapping
difference register minus operand; when the two are equal both Carry and
Zero are set.  Stated for the Immediate mode, whose operand is the byte at
the program counter; the compared value covers both CMP (accumulator) and
CPX (index X), which the dispatcher passes as compare_with. -/
theorem compare_flag_semantics (c : CPU) (r : Nat) (hr : r < 256) (hs : c.status < 256) :
    ∃ c2, c.compare AddressingMode.Immediate r = Except.ok c2
      ∧ (c2.status &&& CpuFlags.CARRY ≠ 0 ↔ c.mem_read c.program_counter ≤ r)
      ∧ (c2.status &&& CpuFlags.ZERO ≠ 0 ↔
          wrapping_sub8 r (c.mem_read c.program_counter) = 0)
      ∧ (c2.status &&& CpuFlags.NEGATIVE ≠ 0 ↔
          0x80 ≤ wrapping_sub8 r (c.mem_read c.program_counter))
      ∧ (c.mem_read c.program_counter = r →
          c2.status &&& CpuFlags.CARRY ≠ 0 ∧ c2.status &&& CpuFlags.ZERO ≠ 0) := by
  set m := c.mem_read c.program_counter with hm
  set diff := wrapping_sub8 r m with hdiff
  have hdlt : diff < 256 := Nat.mod_lt _ (by norm_num)
  refine ⟨_, rfl, ?_⟩
  simp only [CpuFlags.CARRY, CpuFlags.ZERO, CpuFlags.NEGATIVE]
  by_cases hmr : m ≤ r <;>
    simp only [CPU.compare, CPU.get_operand_address, CpuFlags.CARRY, ← hm, ← hdiff,
      hmr, ite_true, ite_false, if_true, if_false]
  · have hb := (by decide : ∀ st : Nat, st < 256 →
        (st ||| 1) &&& 1 ≠ 0 ∧ (st ||| 1) < 256) c.status hs
    obtain ⟨hz, hn, hb1, -, -, -, -, -, -, -⟩ :=
      update_zn_spec { c with status := c.status ||| 1 } diff (by simpa using hb.2) hdlt
    refine ⟨?_, hz, hn, ?_⟩
    · rw [hb1]; simpa using hb.1
    · intro hmr2
      refine ⟨by rw [hb1]; simpa using hb.1, hz.mpr ?_⟩
      rw [hdiff, hmr2, wrapping_sub8]
      omega
  · have hb := (by decide : ∀ st : Nat, st < 256 →
        (st &&& not8 1) &&& 1 = 0 ∧ (st &&& not8 1) < 256) c.status hs
    obtain ⟨hz, hn, hb1, -, -, -, -, -, -, -⟩ :=
      update_zn_spec { c with status := c.status &&& not8 1 } diff (by simpa using hb.2) hdlt
    refine ⟨?_, hz, hn, ?_⟩
    · rw [hb1]; simp [hb.1, hmr]
    · intro hmr2
      exact absurd (le_of_eq hmr2) hmr

/-- Witness for C4 at register value 0x2A and operand 0x2A (the boundary
case): the hypotheses hold and the conclusion follows by the theorem. -/
theorem compare_flag_semantics_witness :
    ((0x2A : Nat) < 256 ∧ ({ zeroCPU with mem := fun _ => 0x2A } : CPU).status < 256) ∧
    (∃ c2, ({ zeroCPU with mem := fun _ => 0x2A } : CPU).compare
        AddressingMode.Immediate 0x2A = Except.ok c2
      ∧ (c2.status &&& CpuFlags.CARRY ≠ 0 ↔
          ({ zeroCPU with mem := fun _ => 0x2A } : CPU).mem_read
            ({ zeroCPU with mem := fun _ => 0x2A } : CPU).program_counter ≤ 0x2A)
      ∧ (c2.status &&& CpuFlags.ZERO ≠ 0 ↔
          wrapping_sub8 0x2A (({ zeroCPU with mem := fun _ => 0x2A } : CPU).mem_read
            ({ zeroCPU with mem := fun _ => 0x2A } : CPU).program_counter) = 0)
      ∧ (c2.status &&& CpuFlags.NEGATIVE ≠ 0 ↔
          0x80 ≤ wrapping_sub8 0x2A (({ zeroCPU with mem := fun _ => 0x2A } : CPU).mem_read
            ({ zeroCPU with mem := fun _ => 0x2A } : CPU).program_counter))
      ∧ (({ zeroCPU with mem := fun _ => 0x2A } : CPU).mem_read
            ({ zeroCPU with mem := fun _ => 0x2A } : CPU).program_counter = 0x2A →
          c2.status &&& CpuFlags.CARRY ≠ 0 ∧ c2.status &&& CpuFlags.ZERO ≠ 0)) :=
  ⟨⟨by decide, by decide⟩,
    compare_flag_semantics { zeroCPU with mem := fun _ => 0x2A } 0x2A (by decide) (by decide)⟩

/-- C10: after LSR, in the accumulator variant as well as in the memory
variant, the Negative flag is clear, because the logical right shift of a
byte cannot have bit 7 set and the flag update is computed from that
result. -/
theorem lsr_clears_negative (c : CPU) (ha : c.register_a < 256) (hs : c.status < 256) :
    c.lsr_accumulator.status &&& CpuFlags.NEGATIVE = 0
  ∧ (∀ mode c2, c.lsr mode = Except.ok c2 → c2.status &&& CpuFlags.NEGATIVE = 0) := by
  constructor
  · have hshift : c.register_a >>> 1 < 128 := by
      have : c.register_a >>> 1 = c.register_a / 2 := Nat.shiftRight_one _
      omega
    by_cases hc : c.register_a &&& 1 = 1 <;>
      simp only [CPU.lsr_accumulator, CpuFlags.CARRY, CpuFlags.NEGATIVE, hc,
        ite_true, ite_false, if_true, if_false]
    · have hb := (by decide : ∀ st : Nat, st < 256 → (st ||| 1) < 256) c.status hs
      obtain ⟨-, -, sn, -, -, -, -, -, -, -⟩ :=
        set_register_a_spec { c with status := c.status ||| 1 } (c.register_a >>> 1)
          (by simpa using hb) (by omega)
      by_contra hne
      exact absurd (sn.mp hne) (by omega)
    · have hb := (by decide : ∀ st : Nat, st < 256 → (st &&& not8 1) < 256) c.status hs
      obtain ⟨-, -, sn, -, -, -, -, -, -, -⟩ :=
        set_register_a_spec { c with status := c.status &&& not8 1 } (c.register_a >>> 1)
          (by simpa using hb) (by omega)
      by_contra hne
      exact absurd (sn.mp hne) (by omega)
  · intro mode c2 hrun
    rcases hga : c.get_operand_address mode with e | addr
    · simp [CPU.lsr, hga, except_bind_error] at hrun
    · have hdata : c.mem_read addr < 256 := Nat.mod_lt _ (by norm_num)
      have hshift : c.mem_read addr >>> 1 < 128 := by
        have : c.mem_read addr >>> 1 = c.mem_read addr / 2 := Nat.shiftRight_one _
        omega
      by_cases hc : c.mem_read addr &&& 1 = 1 <;>
        simp only [CPU.lsr, hga, except_bind_ok, CpuFlags.CARRY, hc, ite_true,
          ite_false, if_true, if_false, Except.ok.injEq] at hrun <;> subst hrun
      · have hb := (by decide : ∀ st : Nat, st < 256 → (st ||| 1) < 256) c.status hs
        have hwst : (({ c with status := c.status ||| 1 } : CPU).mem_write addr
            (c.mem_read addr >>> 1)).status < 256 := by
          simpa [CPU.mem_write] using hb
        obtain ⟨-, sn, -, -, -, -, -, -, -, -⟩ :=
          update_zn_spec (({ c with status := c.status ||| 1 } : CPU).mem_write addr
            (c.mem_read addr >>> 1)) (c.mem_read addr >>> 1) hwst (by omega)
        by_contra hne
        exact absurd (sn.mp hne) (by omega)
      · have hb := (by decide : ∀ st : Nat, st < 256 → (st &&& not8 1) < 256) c.status hs
        have hwst : (({ c with status := c.status &&& not8 1 } : CPU).mem_write addr
            (c.mem_read addr >>> 1)).status < 256 := by
          simpa [CPU.mem_write] using hb
        obtain ⟨-, sn, -, -, -, -, -, -, -, -⟩ :=
          update_zn_spec (({ c with status := c.status &&& not8 1 } : CPU).mem_write addr
            (c.mem_read addr >>> 1)) (c.mem_read addr >>> 1) hwst (by omega)
        by_contra hne
        exact absurd (sn.mp hne) (by omega)

/-- Witness for C10 at accumulator 0xFF and a ZeroPage operand 0xFF: the
hypotheses hold and the conclusion follows by the theorem. -/
theorem lsr_clears_negative_witness :
    (({ zeroCPU with register_a := 0xFF, mem := fun _ => 0xFF } : CPU).register_a < 256
      ∧ ({ zeroCPU with register_a := 0xFF, mem := fun _ => 0xFF } : CPU).status < 256) ∧
    (({ zeroCPU with register_a := 0xFF, mem := fun _ => 0xFF } : CPU).lsr_accumulator.status
        &&& CpuFlags.NEGATIVE = 0
      ∧ (∀ mode c2, ({ zeroCPU with register_a := 0xFF, mem := fun _ => 0xFF } : CPU).lsr mode
          = Except.ok c2 → c2.status &&& CpuFlags.NEGATIVE = 0)) :=
  ⟨⟨by decide, by decide⟩,
    lsr_clears_negative { zeroCPU with register_a := 0xFF, mem := fun _ => 0xFF }
      (by decide) (by decide)⟩

/-- C6: pushing a byte writes it at 0x0100 + stack_pointer and then
decrements the pointer with 8-bit wrap; an immediate pop increments first,
returns the same byte, and restores the pointer.  The 16-bit push writes
the high byte at the first slot, and the 16-bit round trip restores both
the word and the pointer. -/
theorem stack_round_trip (c : CPU) (b w : Nat) (hb : b < 256) (hw : w < 65536)
    (hsp : c.stack_pointer < 256) :
    (c.stack_push b).mem_read (STACK + c.stack_pointer) = b
  ∧ (c.stack_push b).stack_pointer = wrapping_sub8 c.stack_pointer 1
  ∧ (c.stack_push b).stack_pop.1 = b
  ∧ (c.stack_push b).stack_pop.2.stack_pointer = c.stack_pointer
  ∧ (c.stack_push_u16 w).mem_read (STACK + c.stack_pointer) = w >>> 8
  ∧ (c.stack_push_u16 w).stack_pop_u16.1 = w
  ∧ (c.stack_push_u16 w).stack_pop_u16.2.stack_pointer = c.stack_pointer := by
  refine ⟨?_, ?_, ?_, ?_, ?_, ?_, ?_⟩ <;>
    simp only [CPU.stack_push, CPU.stack_pop, CPU.stack_push_u16, CPU.stack_pop_u16,
      CPU.mem_read, CPU.mem_write, wrapping_add8, wrapping_sub8, STACK] <;>
    (try split_ifs) <;>
    first
      | omega
      | (rw [shiftRight8_eq_div w]; omega)
      | (rw [and255_eq_mod w, shiftRight8_eq_div w, byte_lor_compose _ _ (by omega)]; omega)

/-- Witness for C6 at byte 0xAB, word 0xBEEF and the reset stack pointer:
the hypotheses hold and the conclusion follows by the theorem. -/
theorem stack_round_trip_witness :
    ((0xAB : Nat) < 256 ∧ (0xBEEF : Nat) < 65536 ∧ zeroCPU.stack_pointer < 256) ∧
    ((zeroCPU.stack_push 0xAB).mem_read (STACK + zeroCPU.stack_pointer) = 0xAB
  ∧ (zeroCPU.stack_push 0xAB).stack_pointer = wrapping_sub8 zeroCPU.stack_pointer 1
  ∧ (zeroCPU.stack_push 0xAB).stack_pop.1 = 0xAB
  ∧ (zeroCPU.stack_push 0xAB).stack_pop.2.stack_pointer = zeroCPU.stack_pointer
  ∧ (zeroCPU.stack_push_u16 0xBEEF).mem_read (STACK + zeroCPU.stack_pointer) = 0xBEEF >>> 8
  ∧ (zeroCPU.stack_push_u16 0xBEEF).stack_pop_u16.1 = 0xBEEF
  ∧ (zeroCPU.stack_push_u16 0xBEEF).stack_pop_u16.2.stack_pointer = zeroCPU.stack_pointer) :=
  ⟨⟨by decide, by decide, by decide⟩,
    stack_round_trip zeroCPU 0xAB 0xBEEF (by decide) (by decide) (by decide)⟩

/-- C7: zero-page indexed resolution wraps within eight bits and never
leaves the zero page: ZeroPage-X and ZeroPage-Y resolve to the base byte
plus index modulo 256, hence never above 0x00FF, with base 0xFF and index
0x01 giving 0x0000; the Indirect-X and Indirect-Y pointer arithmetic,
including the high-byte fetch at pointer plus one, stays within the zero
page, so two states agreeing on the zero page, the operand byte and the
registers resolve identically. -/
theorem zero_page_indexing_wraps :
    (∀ c : CPU, c.get_operand_address AddressingMode.ZeroPage_X =
      Except.ok ((c.mem_read c.program_counter + c.register_x) % 256))
  ∧ (∀ (c : CPU) (a : Nat), c.get_operand_address AddressingMode.ZeroPage_X =
      Except.ok a → a ≤ 0xFF)
  ∧ (∀ (c : CPU) (a : Nat), c.get_operand_address AddressingMode.ZeroPage_Y =
      Except.ok a → a ≤ 0xFF)
  ∧ (∀ c : CPU, c.mem_read c.program_counter = 0xFF → c.register_x = 0x01 →
      c.get_operand_address AddressingMode.ZeroPage_X = Except.ok 0x0000)
  ∧ (∀ c1 c2 : CPU, (∀ a, a < 256 → c1.mem a = c2.mem a) →
      c1.mem_read c1.program_counter = c2.mem_read c2.program_counter →
      c1.register_x = c2.register_x →
      c1.get_operand_address AddressingMode.Indirect_X =
        c2.get_operand_address AddressingMode.Indirect_X)
  ∧ (∀ c1 c2 : CPU, (∀ a, a < 256 → c1.mem a = c2.mem a) →
      c1.mem_read c1.program_counter = c2.mem_read c2.program_counter →
      c1.register_y = c2.register_y →
      c1.get_operand_address AddressingMode.Indirect_Y =
        c2.get_operand_address AddressingMode.Indirect_Y) := by
  refine ⟨?_, ?_, ?_, ?_, ?_, ?_⟩
  · intro c
    simp [CPU.get_operand_address, wrapping_add8]
  · intro c a h
    simp [CPU.get_operand_address, wrapping_add8] at h
    omega
  · intro c a h
    simp [CPU.get_operand_address, wrapping_add8] at h
    omega
  · intro c hbase hx
    simp [CPU.get_operand_address, wrapping_add8, hbase, hx]
  · intro c1 c2 hzp hop hx
    have hread : ∀ p : Nat, p < 256 → c1.mem_read p = c2.mem_read p := by
      intro p hp
      have hp2 : p % 65536 = p := Nat.mod_eq_of_lt (by omega)
      simp only [CPU.mem_read, hp2, hzp p hp]
    simp only [CPU.get_operand_address, wrapping_add8, hop, hx]
    rw [hread _ (Nat.mod_lt _ (by norm_num)), hread _ (Nat.mod_lt _ (by norm_num))]
  · intro c1 c2 hzp hop hy
    have hread : ∀ p : Nat, p < 256 → c1.mem_read p = c2.mem_read p := by
      intro p hp
      have hp2 : p % 65536 = p := Nat.mod_eq_of_lt (by omega)
      simp only [CPU.mem_read, hp2, hzp p hp]
    simp only [CPU.get_operand_address, wrapping_add8, hop, hy]
    rw [hread _ (mem_read_lt c2 c2.program_counter), hread _ (Nat.mod_lt _ (by norm_num))]

/-- Witness for C7: ZeroPage-X with base byte 0xFF and index 0x01 resolves
to 0x0000, by the fourth conjunct of the theorem. -/
theorem zero_page_indexing_wraps_witness :
    ({ zeroCPU with register_x := 1, mem := fun _ => 0xFF } : CPU).get_operand_address
      AddressingMode.ZeroPage_X = Except.ok 0x0000 :=
  zero_page_indexing_wraps.2.2.2.1 { zeroCPU with register_x := 1, mem := fun _ => 0xFF }
    rfl rfl

/-- The program-copy loop of load succeeds when the bytes fit below the top
of memory, writes the bytes at consecutive addresses from 0x0600 + i, and
leaves every other address untouched. -/
lemma loadAux_spec : ∀ (l : List Nat) (c : CPU) (i : Nat),
    0x0600 + i + l.length ≤ 0x10000 →
    ∃ c1, loadAux c i l = Except.ok c1
      ∧ (∀ j, ∀ h : j < l.length, c1.mem_read (0x0600 + i + j) = l.get ⟨j, h⟩ % 256)
      ∧ (∀ a, a < 65536 → (a < 0x0600 + i ∨ 0x0600 + i + l.length ≤ a) →
          c1.mem_read a = c.mem_read a) := by
  intro l
  induction l with
  | nil =>
      intro c i hbound
      exact ⟨c, rfl, fun j h => absurd h (by simp), fun a ha hout => rfl⟩
  | cons b rest ih =>
      intro c i hbound
      have hlt : 0x0600 + i < 65536 := by
        have := hbound
        simp only [List.length_cons] at this
        omega
      have hstep : loadAux c i (b :: rest) =
          loadAux (c.mem_write (0x0600 + i) b) (i + 1) rest := by
        simp [loadAux, chkAdd16, hlt, except_bind_ok]
      obtain ⟨c1, heq, hwrites, hpres⟩ :=
        ih (c.mem_write (0x0600 + i) b) (i + 1)
          (by simp only [List.length_cons] at hbound; omega)
      refine ⟨c1, hstep.trans heq, ?_, ?_⟩
      · intro j hj
        match j with
        | 0 =>
            have hp := hpres (0x0600 + i) (by omega) (by omega)
            have hw := mem_write_read_self c (0x0600 + i) b
            simpa using hp.trans hw
        | Nat.succ k =>
            have hk : k < rest.length := by
              simpa [Nat.succ_lt_succ_iff] using hj
            have hw := hwrites k hk
            have harith : 0x0600 + i + (k + 1) = 0x0600 + (i + 1) + k := by omega
            rw [harith]
            simpa using hw
      · intro a ha hout
        have h1 : c1.mem_read a = (c.mem_write (0x0600 + i) b).mem_read a := by
          refine hpres a ha ?_
          rcases hout with h | h
          · exact Or.inl (by omega)
          · simp only [List.length_cons] at h
            exact Or.inr (by omega)
        have h2 : (c.mem_write (0x0600 + i) b).mem_read a = c.mem_read a := by
          refine mem_write_read_other c (0x0600 + i) a b ?_
          have hne : a ≠ 0x0600 + i := by
            rcases hout with h | h
            · omega
            · simp only [List.length_cons] at h
              omega
          rw [Nat.mod_eq_of_lt ha, Nat.mod_eq_of_lt hlt]
          exact hne
        exact h1.trans h2

/-- C8: loading a program that fits below the reset vector writes it
byte-for-byte from the fixed origin 0x0600, stores 0x0600 little-endian in
the reset vector at 0xFFFC/0xFFFD, and a subsequent reset leaves the
program counter at 0x0600, the general registers and status zero, and the
stack pointer 0xFD. -/
theorem load_reset_semantics (c : CPU) (program : List Nat)
    (hlen : 0x0600 + program.length ≤ 0xFFFC) (hbytes : ∀ b ∈ program, b < 256) :
    ∃ c1, c.load program = Except.ok c1
      ∧ (∀ i, ∀ h : i < program.length, c1.mem_read (0x0600 + i) = program.get ⟨i, h⟩)
      ∧ c1.mem_read 0xFFFC = 0x00
      ∧ c1.mem_read 0xFFFD = 0x06
      ∧ ∃ c2, c1.reset = Except.ok c2
          ∧ c2.program_counter = 0x0600
          ∧ c2.register_a = 0 ∧ c2.register_x = 0 ∧ c2.register_y = 0
          ∧ c2.status = 0 ∧ c2.stack_pointer = 0xFD := by
  have htake : program.take (program.length % 65536) = program := by
    have : program.length % 65536 = program.length := Nat.mod_eq_of_lt (by omega)
    rw [this, List.take_length]
  obtain ⟨c0, heq, hwrites, hpres⟩ := loadAux_spec program c 0 (by omega)
  have hload : c.load program =
      Except.ok ((c0.mem_write 0xFFFC (0x0600 &&& 0xff)).mem_write 0xFFFD
        (0x0600 >>> 8 % 256)) := by
    simp only [CPU.load, htake, heq, except_bind_ok, CPU.mem_write_u16, chkAdd16]
    rfl
  set c1 := (c0.mem_write 0xFFFC (0x0600 &&& 0xff)).mem_write 0xFFFD
    (0x0600 >>> 8 % 256) with hc1
  have hfc : c1.mem_read 0xFFFC = 0x00 := by
    rw [hc1, mem_write_read_other _ _ _ _ (by norm_num), mem_write_read_self]
    decide
  have hfd : c1.mem_read 0xFFFD = 0x06 := by
    rw [hc1, mem_write_read_self]
    decide
  refine ⟨c1, hload, ?_, hfc, hfd, ?_⟩
  · intro i h
    have haddr : 0x0600 + i < 0xFFFC := by omega
    have h1 : c1.mem_read (0x0600 + i) = c0.mem_read (0x0600 + i) := by
      rw [hc1, mem_write_read_other _ _ _ _ (by rw [Nat.mod_eq_of_lt (by omega)]; omega),
        mem_write_read_other _ _ _ _ (by rw [Nat.mod_eq_of_lt (by omega)]; omega)]
    have h2 : c0.mem_read (0x0600 + i) = program.get ⟨i, h⟩ % 256 := by
      simpa using hwrites i h
    rw [h1, h2]
    exact Nat.mod_eq_of_lt (hbytes _ (List.get_mem program i h))
  · have hread : c1.mem_read_u16 0xFFFC = Except.ok 0x0600 := by
      simp only [CPU.mem_read_u16, chkAdd16]
      rw [if_pos (by norm_num), except_bind_ok, hfd, hfc]
      rfl
    have hreset : c1.reset = Except.ok
        { c1 with
          register_a := 0,
          register_x := 0,
          register_y := 0,
          status := 0,
          stack_pointer := STACK_RESET,
          program_counter := 0x0600 } := by
      simp only [CPU.reset, hread, except_bind_ok]
    exact ⟨_, hreset, rfl, rfl, rfl, rfl, rfl, rfl⟩

/-- Witness for C8 at the program LDA number 5 then BRK over a fresh
processor: the hypotheses hold and the conclusion follows by the theorem. -/
theorem load_reset_semantics_witness :
    ((0x0600 + ([0xA9, 0x05, 0x00] : List Nat).length ≤ 0xFFFC)
      ∧ (∀ b ∈ ([0xA9, 0x05, 0x00] : List Nat), b < 256)) ∧
    (∃ c1, zeroCPU.load [0xA9, 0x05, 0x00] = Except.ok c1
      ∧ (∀ i, ∀ h : i < ([0xA9, 0x05, 0x00] : List Nat).length,
          c1.mem_read (0x0600 + i) = ([0xA9, 0x05, 0x00] : List Nat).get ⟨i, h⟩)
      ∧ c1.mem_read 0xFFFC = 0x00
      ∧ c1.mem_read 0xFFFD = 0x06
      ∧ ∃ c2, c1.reset = Except.ok c2
          ∧ c2.program_counter = 0x0600
          ∧ c2.register_a = 0 ∧ c2.register_x = 0 ∧ c2.register_y = 0
          ∧ c2.status = 0 ∧ c2.stack_pointer = 0xFD) :=
  ⟨⟨by decide, by decide⟩,
    load_reset_semantics zeroCPU [0xA9, 0x05, 0x00] (by decide) (by decide)⟩

/-- C9 counterexample: running the single halting BRK instruction retires
one instruction but invokes the per-instruction callback zero times, so the
hook is not invoked for the final break instruction as the claim states. -/
theorem callback_skips_final_brk :
    runHalted (runWithTrace 1 zeroCPU) = true
  ∧ runRetired (runWithTrace 1 zeroCPU) = 1
  ∧ runTraceLen (runWithTrace 1 zeroCPU) = 0 := by
  refine ⟨rfl, rfl, rfl⟩

/-- C9 as amended: in every successful run the callback is invoked exactly
once per retired instruction except for the halting BRK, which retires
without a callback; each recorded invocation happens on the state after
program-counter finalisation, by construction of step. -/
theorem callback_once_per_retired_nonfinal (fuel : Nat) (c : CPU)
    (hok : runOk (runWithTrace fuel c) = true) :
    runTraceLen (runWithTrace fuel c)
      + (if runHalted (runWithTrace fuel c) then 1 else 0)
      = runRetired (runWithTrace fuel c) := by
  induction fuel generalizing c with
  | zero => simp [runWithTrace, runTraceLen, runHalted, runRetired]
  | succ fuel ih =>
      rcases hstep : step c with e | out
      · simp [runWithTrace, hstep, runOk] at hok
      · rcases hhalt : out.halted with hfalse | htrue
        · rcases hrec : runWithTrace fuel out.state with e2 | r
          · simp [runWithTrace, hstep, hhalt, hrec, runOk] at hok
          · have hcount := ih out.state (by simp [hrec, runOk])
            simp only [hrec, runTraceLen, runHalted, runRetired] at hcount
            simp only [runWithTrace, hstep, hhalt, hrec, runTraceLen, runHalted,
              runRetired, List.length_cons]
            cases hrh : r.halted <;> simp only [hrh] at hcount ⊢ <;> simp at hcount ⊢ <;> omega
        · simp [runWithTrace, hstep, hhalt, runTraceLen, runHalted, runRetired]

/-- Witness for C9 at the program LDA number 5 then BRK: the run succeeds
and the conclusion (one callback, two retired instructions) follows by the
theorem. -/
theorem callback_once_per_retired_nonfinal_witness :
    runOk (runWithTrace 3 ldaCpu) = true ∧
    (runTraceLen (runWithTrace 3 ldaCpu)
      + (if runHalted (runWithTrace 3 ldaCpu) then 1 else 0)
      = runRetired (runWithTrace 3 ldaCpu)) :=
  ⟨rfl, callback_once_per_retired_nonfinal 3 ldaCpu rfl⟩

/-- C1: the branch path wraps (a taken branch at the top of memory with a
negative offset lands at the wrapped address, both through the branch
helper and through a full dispatcher step), but the 16-bit high-byte read
at pos + 1 and the post-opcode program-counter increment are unchecked u16
additions that overflow at 0xFFFF instead of wrapping. -/
theorem pc_increment_and_high_byte_overflow :
    CPU.mem_read_u16 nopTopCpu 0xFFFF = Except.error EngineError.overflow
  ∧ step nopTopCpu = Except.error EngineError.overflow
  ∧ (CPU.branch brOnlyCpu true).program_counter = 0xFFE2
  ∧ stepPC (step branchTopCpu) = some 0xFFE2 := by
  refine ⟨rfl, rfl, rfl, rfl⟩

/-- C2: a third fatal condition exists besides the unknown-opcode and
NoneAddressing panics: executing JSR at 0xFFFD, an opcode that is present
in the table and never consults the resolver, aborts with an arithmetic
overflow in the unchecked return-address computation. -/
theorem third_fatal_condition :
    OPCODES_MAP 0x20 = some (AddressingMode.Absolute, 3)
  ∧ step jsrTopCpu = Except.error EngineError.overflow := by
  refine ⟨rfl, rfl⟩

end ENES
